import Mathlib

/-!
Shallow embedding of the meeting-gatekeeper orchestrator in `src/server/index.js`
(the revised server: transcript helpers `appendMessage`/`updateState`, the
`POST /api/agent/message`, `POST /api/agent/complete` and
`POST /api/agent/form/submit` handlers, `agentDecideAndGather`,
`buildFormSchema`, `buildBriefing`, `toList` and `loadConfig`).

External collaborators (OpenAI client, Google Calendar, the SSE transport) are
parameters of the handlers: the oracle outcome, the slot-suggestion outcome, the
chat-reply outcome and the calendar-insert outcome are given as `Except`-style
values, and the attached-subscriber flag `stream` guards every emission exactly
as the `if (stream) sseSend(...)` guards do in the source.  Each handler acts on
the single job record it addresses; the record store is modelled as the
`Option Job` for that jobId, and every `writeJSON`/`appendMessage`/`updateState`
disk write is recorded in the `writes` trace of the result.
-/

namespace Bookening

/-- A transcript entry `{role, agent, content, at}` (the source field `at` is
named `atTime` here because `at` is reserved in Lean). -/
structure Message where
  role : String
  agent : String
  content : String
  atTime : Nat
deriving DecidableEq, Repr

inductive Decision
  | APPROVE
  | DECLINE
deriving DecidableEq, Repr

/-- The parsed oracle output `{decision, rationale, missing}`; `missing = none`
models a JS object without a `missing` property. -/
structure DecisionResult where
  decision : Decision
  rationale : String
  missing : Option (List String)
deriving DecidableEq, Repr

/-- A duck-typed JS value as it appears in request bodies: a string, an array of
strings, or absent (`undefined`). -/
inductive JsVal
  | str (s : String)
  | list (l : List String)
  | undef
deriving DecidableEq, Repr

/-- The `form` object as submitted or stored (fields may be strings, arrays, or
absent, exactly as in the untyped source). -/
structure RawForm where
  topic : JsVal := .undef
  attendees : JsVal := .undef
  urgency : JsVal := .undef
  desiredTimeframe : JsVal := .undef
  background : JsVal := .undef
  links : JsVal := .undef
deriving DecidableEq, Repr

/-- The persisted job record (the fields the orchestration reads or writes;
`{...rec, x}` spreads in the source preserve all other fields unchanged, so
omitting the identity fields loses nothing). -/
structure Job where
  messages : List Message := []
  state : Option String := none
  evaluated : Option Bool := none
  lastDecision : Option DecisionResult := none
  form : Option RawForm := none
  updatedAt : Option Nat := none
deriving DecidableEq, Repr

/-- `loadConfig()` result shape. -/
structure Config where
  dueDiligenceChecklist : List String
  decisionPolicy : String
  requiredFieldsOnApprove : List String
deriving DecidableEq, Repr

/-- The default configuration hardcoded in `loadConfig` (index.js lines 642-650). -/
def defaultConfig : Config :=
  { dueDiligenceChecklist :=
      ["Have you searched our docs / website?",
       "Do you have a clear agenda and desired outcome?",
       "Is email/async insufficient?"]
    decisionPolicy := "conservative"
    requiredFieldsOnApprove := ["topic", "attendees", "urgency", "desiredTimeframe"] }

/-- One field of the synthesized form schema (`buildFormSchema`, lines 439-454). -/
structure FormField where
  key : String
  label : String
  input : String
  required : Bool
  options : List String := []
deriving DecidableEq, Repr

structure FormSchema where
  id : String
  title : String
  fields : List FormField
deriving DecidableEq, Repr

/-- `buildFormSchema(ask)`: fixed six fields, `required` when the key is in `ask`. -/
def buildFormSchema (ask : List String) : FormSchema :=
  let req : String → Bool := fun k => ask.contains k
  { id := "details"
    title := "Meeting details"
    fields :=
      [⟨"topic", "Topic", "text", req "topic", []⟩,
       ⟨"attendees", "Attendees (emails)", "email_list", req "attendees", []⟩,
       ⟨"urgency", "Urgency", "select", req "urgency", ["low", "medium", "high"]⟩,
       ⟨"desiredTimeframe", "Desired timeframe", "text", req "desiredTimeframe", []⟩,
       ⟨"background", "Background", "textarea", req "background", []⟩,
       ⟨"links", "Links", "text_list", req "links", []⟩] }

/-- The typed SSE events (payloads the claims inspect are kept; the `args`,
`result` and `actor` payloads of `tool` events, which no property reads, are
elided). `agentDecision`/`agentCalendar` are the two shapes of the source's
`agent` event. -/
inductive Event
  | log (msg : String)
  | stateEv (state : String)
  | chat (role : String) (agent : String) (content : String)
  | tool (name : String) (status : String)
  | decision (d : DecisionResult)
  | agentDecision (d : DecisionResult)
  | agentCalendar (suggestions : List String)
  | gather (ask : List String)
  | form (schema : FormSchema)
  | briefing (text : String)
  | scheduled (eventId : String) (htmlLink : String)
  | done (status : String)
  | error (err : String)
deriving DecidableEq, Repr

/-- HTTP outcome of a handler; `crash` is an exception thrown outside any
try/catch (express receives the rejected promise). -/
inductive HttpResp
  | ok
  | badRequest (msg : String)
  | notFound (msg : String)
  | serverError (msg : String)
  | crash (e : String)
deriving DecidableEq, Repr

/-- Result of running a handler: the final stored record, the events sent to
the sink, the sequence of records written to disk, and the HTTP response. -/
structure HandlerResult where
  store : Option Job
  events : List Event
  writes : List Job
  resp : HttpResp
deriving DecidableEq, Repr

/-- Guarded emission: events reach the sink only when a subscriber is attached. -/
def emitIf (stream : Bool) (evs : List Event) : List Event :=
  if stream then evs else []

/-- `appendMessage(jobId, msg)` (lines 419-425) on the record it reads:
appends `{at: Date.now(), ...msg}` to `messages` and writes the record back. -/
def appendMessage (rec : Job) (msg : Message) : Job :=
  { rec with messages := rec.messages ++ [msg] }

/-- `updateState(jobId, newState)` (lines 428-436): writes
`{...rec, state, updatedAt}` back; the `state` SSE event it sends is accounted
for at each call site. -/
def updateState (rec : Job) (newState : String) (now : Nat) : Job :=
  { rec with state := some newState, updatedAt := some now }

/-- Abstraction of `JSON.stringify(decision)` for the assistant/decision
transcript entry (the exact JSON text is read by no property; only the entry's
role and agent are). -/
def decisionJson (d : DecisionResult) : String :=
  "decision=" ++ (match d.decision with | .APPROVE => "APPROVE" | .DECLINE => "DECLINE")
    ++ ";rationale=" ++ d.rationale
    ++ ";missing=" ++ (match d.missing with
        | none => "absent"
        | some l => String.intercalate "," l)

/-- Oracle interaction outcome as seen by `agentDecideAndGather`: the OpenAI
client may be absent, the API call may throw, or it returns text that either
parses to a decision object or fails `JSON.parse`. -/
inductive OracleResp
  | noClient
  | throws (e : String)
  | output (parsed : Option DecisionResult)
deriving DecidableEq, Repr

/-- `agentDecideAndGather` (lines 662-707): emits a log, then either the
no-client fallback, a thrown API error, or the parsed (or parse-fallback)
decision, a `decision` event, and - when APPROVE with a non-empty effective
missing list (`parsed.missing || cfg.requiredFieldsOnApprove`) - a `gather`
event.  Returns the emitted events and the decision (or the propagated error). -/
def agentDecideAndGather (cfg : Config) (oracle : OracleResp) :
    List Event × Except String DecisionResult :=
  let evs : List Event := [.log "Evaluating due diligence..."]
  match oracle with
  | .noClient =>
      (evs ++ [.log "LLM disabled (no OPENAI_API_KEY). Defaulting to conservative DECLINE."],
       .ok ⟨.DECLINE, "LLM disabled", none⟩)
  | .throws e => (evs, .error e)
  | .output p =>
      let parsed := p.getD ⟨.DECLINE, "Parsing error", none⟩
      let evs := evs ++ [.decision parsed]
      let evs :=
        if parsed.decision = .APPROVE then
          let missing := parsed.missing.getD cfg.requiredFieldsOnApprove
          if missing.length > 0 then evs ++ [.gather missing] else evs
        else evs
      (evs, .ok parsed)

/-- Lines 960-962 of the message handler: use the oracle missing list when it
is non-empty, else fall back to the policy required fields (APPROVE) or the
fixed probe list (DECLINE). -/
def computeAsk (cfg : Config) (d : DecisionResult) : List String :=
  match d.missing with
  | some l =>
      if l.length > 0 then l
      else if d.decision = .APPROVE then cfg.requiredFieldsOnApprove
      else ["topic", "desiredTimeframe", "agenda"]
  | none =>
      if d.decision = .APPROVE then cfg.requiredFieldsOnApprove
      else ["topic", "desiredTimeframe", "agenda"]

/-- Lines 975-981: the final `updateState` target of the message handler. -/
def finalStateOf (cfg : Config) (d : DecisionResult) : String :=
  if d.decision = .APPROVE ∧ (computeAsk cfg d).length = 0 then "ready_to_schedule"
  else if d.decision = .APPROVE then "approved_needs_details"
  else "awaiting_input"

/-- Tail of the message handler after the decision (and any calendar
suggestion) succeeded: lines 958-982.  Appends the assistant/decision entry,
generates the chat reply (which may throw), emits `gather` and (in the
APPROVE-with-ask branch) `form`, appends and emits the chat reply, runs the
final `updateState`, and then executes the last
`writeJSON(recordPath, {...next, evaluated: true, lastDecision: decision})` -
note that this spreads the stale snapshot `next` taken just after the
user-message append, so it overwrites the state and messages written since. -/
def receiveMessageTail (cfg : Config) (next recS : Job) (decision : DecisionResult)
    (evs0 : List Event) (ws0 : List Job) (stream : Bool)
    (chatText : Except String String) (now : Nat) : HandlerResult :=
  let recD := appendMessage recS ⟨"assistant", "decision", decisionJson decision, now⟩
  let ws1 := ws0 ++ [recD]
  let ask := computeAsk cfg decision
  match chatText with
  | .error _ => ⟨some recD, evs0, ws1, .ok⟩
  | .ok chatMsg =>
      let evs1 := evs0 ++ emitIf stream [.gather ask]
      let evs2 := evs1 ++
        (if decision.decision = .APPROVE ∧ ask.length > 0 then
          emitIf stream [.form (buildFormSchema ask)]
        else [])
      let recC := appendMessage recD ⟨"assistant", "chat", chatMsg, now⟩
      let evs3 := evs2 ++ emitIf stream [.chat "assistant" "chat" chatMsg]
      let fin := finalStateOf cfg decision
      let recF := updateState recC fin now
      let evs4 := evs3 ++ emitIf stream [.stateEv fin]
      let recClobber : Job := { next with evaluated := some true, lastDecision := some decision }
      ⟨some recClobber, evs4, ws1 ++ [recC, recF, recClobber], .ok⟩

/-- `POST /api/agent/message` (lines 926-987).  Appends the user message,
moves the record to `evaluating`, echoes the user chat, then runs the pipeline
inside a try whose catch swallows the error (`/* Already streamed error in
agentDecideAndGather */`) and still answers `{ok: true}`. -/
def receiveMessage (cfg : Config) (store : Option Job) (content : String)
    (stream : Bool) (oracle : OracleResp) (suggest : Except String (List String))
    (chatText : Except String String) (now : Nat) : HandlerResult :=
  if content = "" then ⟨store, [], [], .badRequest "jobId and content required"⟩
  else
    match store with
    | none => ⟨none, [], [], .notFound "Unknown jobId"⟩
    | some rec =>
        let next := appendMessage rec ⟨"user", "user", content, now⟩
        let recS := updateState next "evaluating" now
        let evs0 := emitIf stream [.stateEv "evaluating"] ++
          emitIf stream [.chat "user" "user" content]
        let ws0 := [next, recS]
        let evs1 := evs0 ++ emitIf stream [.tool "decision.evaluate" "call"]
        let adg := agentDecideAndGather cfg oracle
        let evs2 := evs1 ++ emitIf stream adg.1
        match adg.2 with
        | .error _ => ⟨some recS, evs2, ws0, .ok⟩
        | .ok decision =>
            let evs3 := evs2 ++
              emitIf stream [.tool "decision.evaluate" "result", .agentDecision decision]
            if decision.decision = .APPROVE then
              let evs4 := evs3 ++ emitIf stream [.tool "calendar.suggest" "call"]
              match suggest with
              | .error _ => ⟨some recS, evs4, ws0, .ok⟩
              | .ok slots =>
                  let evs5 := evs4 ++
                    emitIf stream [.tool "calendar.suggest" "result", .agentCalendar slots]
                  receiveMessageTail cfg next recS decision evs5 ws0 stream chatText now
            else
              receiveMessageTail cfg next recS decision evs3 ws0 stream chatText now

/-- JS whitespace as stripped by `String.prototype.trim`. -/
def isJsSpace (c : Char) : Bool :=
  c = ' ' || c = '\t' || c = '\n' || c = '\r'

/-- Character-level splitting on a separator, as `String.prototype.split(',')`
does (an empty input yields one empty piece). -/
def splitOnChar (sep : Char) : List Char → List (List Char)
  | [] => [[]]
  | c :: rest =>
      let r := splitOnChar sep rest
      if c = sep then [] :: r
      else
        match r with
        | [] => [[c]]
        | h :: t => (c :: h) :: t

/-- `s.split(',')` modelled on the character list of the string. -/
def jsSplitComma (s : String) : List String :=
  (splitOnChar ',' s.data).map fun cs => String.mk cs

/-- `s.trim()` modelled on the character list of the string. -/
def jsTrim (s : String) : String :=
  String.mk (((s.data.dropWhile isJsSpace).reverse.dropWhile isJsSpace).reverse)

/-- `toList` of the form/submit handler (line 1054): arrays pass through
unchanged; strings are comma-split, trimmed and stripped of empties
(`filter(Boolean)`); anything else becomes `[]`. -/
def toList (v : JsVal) : List String :=
  match v with
  | .list l => l
  | .str s => ((jsSplitComma s).map jsTrim).filter (fun x => x ≠ "")
  | .undef => []

/-- `v || d` for a string-valued field (`values.topic || ''` and friends):
absent and the empty string are falsy; non-empty strings and arrays are truthy
and pass through. -/
def jsOrVal (v : JsVal) (d : String) : JsVal :=
  match v with
  | .undef => .str d
  | .str s => if s = "" then .str d else .str s
  | .list l => .list l

/-- Normalization block of `POST /api/agent/form/submit` (lines 1055-1062). -/
def normalizeValues (values : RawForm) : RawForm :=
  { topic := jsOrVal values.topic ""
    attendees := .list (toList values.attendees)
    urgency := jsOrVal values.urgency "medium"
    desiredTimeframe := jsOrVal values.desiredTimeframe ""
    background := jsOrVal values.background ""
    links := .list (toList values.links) }

/-- `(v || []).join(sep)` / `(v || []).map(f)` on a duck-typed field: arrays
work, absent or empty-string values fall back to `[]`, and a non-empty string
has no `join`/`map` method, so the call throws a TypeError. -/
def jsListOr (v : JsVal) : Except String (List String) :=
  match v with
  | .list l => .ok l
  | .str s => if s = "" then .ok [] else .error "TypeError: not a function"
  | .undef => .ok []

/-- `${form.x || ''}` template interpolation of a duck-typed field (an array
stringifies as its comma join). -/
def jsTemplate (v : JsVal) : String :=
  match v with
  | .str s => s
  | .undef => ""
  | .list l => String.intercalate "," l

/-- `e.message || 'Calendar error'` style defaulting. -/
def jsOrStr (s d : String) : String :=
  if s = "" then d else s

/-- `buildBriefing(ownerUser, form)` (lines 744-754); throws when `attendees`
or `links` is a non-empty string (strings have no `.join`). -/
def buildBriefing (requester : String) (form : RawForm) : Except String String :=
  match jsListOr form.attendees with
  | .error e => .error e
  | .ok att =>
      match jsListOr form.links with
      | .error e => .error e
      | .ok lnks =>
          .ok (String.intercalate "\n"
            ["Requester: " ++ requester,
             "Topic: " ++ jsTemplate form.topic,
             "Attendees: " ++ String.intercalate ", " att,
             "Urgency: " ++ jsTemplate form.urgency,
             "Desired timeframe: " ++ jsTemplate form.desiredTimeframe,
             "Background: " ++ jsTemplate form.background,
             "Links: " ++ String.intercalate ", " lnks])

/-- `POST /api/agent/complete` (lines 989-1041): stores the submitted `form`
verbatim, moves to `ready_to_schedule`, builds the briefing (outside the
try/catch - a duck-type error here crashes the handler), appends and emits the
briefing chat line, then inside the try moves to `scheduling`, calls the
calendar insert and ends in `notified` (success) or `error` (failure, HTTP 500). -/
def complete (store : Option Job) (form : RawForm) (stream : Bool)
    (requester : String) (ownerConnected userConnected : Bool)
    (insert : Except String (String × String)) (now : Nat) : HandlerResult :=
  match store with
  | none => ⟨none, [], [], .notFound "Unknown jobId"⟩
  | some rec =>
      let rec1 : Job := { rec with form := some form }
      let rec2 := updateState rec1 "ready_to_schedule" now
      let evs0 := emitIf stream [.stateEv "ready_to_schedule"] ++
        emitIf stream [.log "Compiling briefing..."]
      let ws0 := [rec1, rec2]
      match buildBriefing requester form with
      | .error e => ⟨some rec2, evs0, ws0, .crash e⟩
      | .ok brief =>
          let evs1 := evs0 ++ emitIf stream [.briefing brief]
          let chatMsg := "I prepared a briefing draft based on your details. Scheduling now..."
          let rec3 := appendMessage rec2 ⟨"assistant", "chat", chatMsg, now⟩
          let evs2 := evs1 ++ emitIf stream [.chat "assistant" "chat" chatMsg]
          let ws1 := ws0 ++ [rec3]
          if !userConnected && !ownerConnected then
            ⟨some rec3, evs2 ++ emitIf stream [.error "Owner Google not connected"], ws1,
             .badRequest "Owner Google not connected"⟩
          else
            let rec4 := updateState rec3 "scheduling" now
            let evs3 := evs2 ++ emitIf stream [.stateEv "scheduling"]
            let ws2 := ws1 ++ [rec4]
            match jsListOr form.attendees with
            | .error e =>
                let rec5 := updateState rec4 "error" now
                ⟨some rec5,
                 evs3 ++ emitIf stream [.error (jsOrStr e "Calendar error")] ++
                   emitIf stream [.stateEv "error"],
                 ws2 ++ [rec5], .serverError "Calendar error"⟩
            | .ok _ =>
                let evs4 := evs3 ++ emitIf stream [.tool "calendar.schedule" "call"]
                match insert with
                | .ok (eid, link) =>
                    let evs5 := evs4 ++
                      emitIf stream [.tool "calendar.schedule" "result", .scheduled eid link]
                    let rec5 := updateState rec4 "notified" now
                    ⟨some rec5,
                     evs5 ++ emitIf stream [.stateEv "notified"] ++
                       emitIf stream [.done "SCHEDULED"],
                     ws2 ++ [rec5], .ok⟩
                | .error e =>
                    let rec5 := updateState rec4 "error" now
                    ⟨some rec5,
                     evs4 ++ emitIf stream [.error (jsOrStr e "Calendar error")] ++
                       emitIf stream [.stateEv "error"],
                     ws2 ++ [rec5], .serverError "Calendar error"⟩

/-- `POST /api/agent/form/submit` (lines 1044-1103): normalizes `values` via
`toList`/defaulting, stores the normalized form, moves to `ready_to_schedule`,
emits briefing and chat, then schedules; failure ends in `error` with HTTP 500
(this handler also sets `error` when the owner calendar is not connected). -/
def formSubmit (store : Option Job) (values? : Option RawForm) (stream : Bool)
    (requester : String) (ownerConnected userConnected : Bool)
    (insert : Except String (String × String)) (now : Nat) : HandlerResult :=
  match values? with
  | none => ⟨store, [], [], .badRequest "jobId and values required"⟩
  | some values =>
      match store with
      | none => ⟨none, [], [], .notFound "Unknown jobId"⟩
      | some rec =>
          let form := normalizeValues values
          let rec1 : Job := { rec with form := some form }
          let rec2 := updateState rec1 "ready_to_schedule" now
          let evs0 := emitIf stream [.stateEv "ready_to_schedule"] ++
            emitIf stream [.log "Compiling briefing..."]
          let ws0 := [rec1, rec2]
          match buildBriefing requester form with
          | .error e => ⟨some rec2, evs0, ws0, .crash e⟩
          | .ok brief =>
              let evs1 := evs0 ++ emitIf stream [.briefing brief]
              let chatMsg := "Thanks! I have what I need. Scheduling now..."
              let rec3 := appendMessage rec2 ⟨"assistant", "chat", chatMsg, now⟩
              let evs2 := evs1 ++ emitIf stream [.chat "assistant" "chat" chatMsg]
              let ws1 := ws0 ++ [rec3]
              if !userConnected && !ownerConnected then
                let rec4 := updateState rec3 "error" now
                ⟨some rec4,
                 evs2 ++ emitIf stream [.error "Owner Google not connected"] ++
                   emitIf stream [.stateEv "error"],
                 ws1 ++ [rec4], .badRequest "Owner Google not connected"⟩
              else
                let rec4 := updateState rec3 "scheduling" now
                let evs3 := evs2 ++ emitIf stream [.stateEv "scheduling"]
                let ws2 := ws1 ++ [rec4]
                match insert with
                | .ok (eid, link) =>
                    let rec5 := updateState rec4 "notified" now
                    ⟨some rec5,
                     evs3 ++ emitIf stream [.scheduled eid link] ++
                       emitIf stream [.stateEv "notified"] ++
                       emitIf stream [.done "SCHEDULED"],
                     ws2 ++ [rec5], .ok⟩
                | .error e =>
                    let rec5 := updateState rec4 "error" now
                    ⟨some rec5,
                     evs3 ++ emitIf stream [.error (jsOrStr e "Calendar error")] ++
                       emitIf stream [.stateEv "error"],
                     ws2 ++ [rec5], .serverError "Calendar error"⟩

/-- `POST /api/agent/start` (lines 892-905): the fresh record. -/
def start (initialMessage : String) (now : Nat) : Job :=
  { messages :=
      if initialMessage = "" then []
      else [⟨"user", "user", initialMessage, now⟩]
    state := some "awaiting_input"
    evaluated := some false
    lastDecision := none
    form := none
    updatedAt := none }

/- Accessors and event filters used by the statements. -/

def jobState : Option Job → Option String
  | some j => j.state
  | none => none

def jobMessages : Option Job → List Message
  | some j => j.messages
  | none => []

def jobForm : Option Job → Option RawForm
  | some j => j.form
  | none => none

def stateEvents (evs : List Event) : List String :=
  evs.filterMap fun e => match e with | .stateEv s => some s | _ => none

def gatherEvents (evs : List Event) : List (List String) :=
  evs.filterMap fun e => match e with | .gather a => some a | _ => none

def errorEvents (evs : List Event) : List String :=
  evs.filterMap fun e => match e with | .error s => some s | _ => none

def isFormEvent : Event → Bool
  | .form _ => true
  | _ => false

def isGatherEvent : Event → Bool
  | .gather _ => true
  | _ => false

def isDecisionEvent : Event → Bool
  | .decision _ => true
  | _ => false

def isDecisionToolResult : Event → Bool
  | .tool "decision.evaluate" "result" => true
  | _ => false

def isAssistantChat : Event → Bool
  | .chat "assistant" "chat" _ => true
  | _ => false

def hasFormEvent (evs : List Event) : Bool := evs.any isFormEvent
def hasGatherEvent (evs : List Event) : Bool := evs.any isGatherEvent
def hasAssistantChat (evs : List Event) : Bool := evs.any isAssistantChat

/- Concrete fixtures. -/

/-- A job as created by `start` with no initial message. -/
def job0 : Job := start "" 0

/-- An APPROVE decision whose oracle missing list is `["topic"]`. -/
def approveTopic : DecisionResult := ⟨.APPROVE, "warranted", some ["topic"]⟩

/-- A completed APPROVE-with-missing `receiveMessage` run on `job0`. -/
def runApprove : HandlerResult :=
  receiveMessage defaultConfig (some job0) "Need a meeting" true
    (.output (some approveTopic)) (.ok []) (.ok "Could you share the topic?") 5

/-- A job already in the terminal state `notified`. -/
def notifiedJob : Job := { job0 with state := some "notified" }

/-- An all-absent submitted form (every field `undefined`). -/
def emptyForm : RawForm := {}

/-- `complete` on the `notified` job with a failing calendar insert. -/
def runTerminalComplete : HandlerResult :=
  complete (some notifiedJob) emptyForm true "owner@example.com" true false
    (.error "insert failed") 7

/-- The form of the claim example submitted to `complete` as a comma string. -/
def claimStringForm : RawForm := { attendees := .str "a@x.com, b@x.com" }

/-- The form of the claim example submitted to `form/submit` as a list. -/
def claimListForm : RawForm := { attendees := .list ["a@x.com", "b@x.com"] }

def runCompleteStr : HandlerResult :=
  complete (some job0) claimStringForm true "u@example.com" true false
    (.ok ("ev1", "link1")) 3

def runFormSubmitList : HandlerResult :=
  formSubmit (some job0) (some claimListForm) true "u@example.com" true false
    (.ok ("ev2", "link2")) 3

/-- An APPROVE decision with an explicitly empty oracle missing list. -/
def approveEmptyMissing : DecisionResult := ⟨.APPROVE, "warranted", some []⟩

def runEmptyMissing : HandlerResult :=
  receiveMessage defaultConfig (some job0) "Need a meeting" true
    (.output (some approveEmptyMissing)) (.ok []) (.ok "reply") 2

/-- A `receiveMessage` run in which the oracle API call throws. -/
def runOracleThrow : HandlerResult :=
  receiveMessage defaultConfig (some job0) "hello" true (.throws "boom")
    (.ok []) (.ok "reply") 1

/-- A fully populated, already-normalized form (list-valued attendees/links). -/
def bookedForm : RawForm :=
  { topic := .str "Q4 strategy", attendees := .list ["a@x.com"], urgency := .str "high",
    desiredTimeframe := .str "this week", background := .str "align on resourcing",
    links := .list [] }

/-- A record written by appending one message differs from the original record. -/
theorem job_append_ne (rec j : Job) (m : Message)
    (hm : j.messages = rec.messages ++ [m]) : some j ≠ some rec := by
  intro h
  injection h with h2
  rw [h2] at hm
  have hl := congrArg List.length hm
  simp at hl

/-- Characterization of the event trace of a `receiveMessage` run whose oracle
output parses, whose slot suggestion succeeds and whose chat reply generation
succeeds: the trace is exactly the concatenation of blocks below (note the
`decision` event and the optional early `gather` inside `agentDecideAndGather`
come before the `decision.evaluate` tool-result). -/
theorem receiveMessage_ok_events (cfg : Config) (rec : Job) (c : String) (hc : ¬ c = "")
    (d : DecisionResult) (slots : List String) (reply : String) (now : Nat) :
    (receiveMessage cfg (some rec) c true (.output (some d)) (.ok slots) (.ok reply) now).events
      = [.stateEv "evaluating", .chat "user" "user" c, .tool "decision.evaluate" "call",
         .log "Evaluating due diligence...", .decision d]
        ++ (if d.decision = .APPROVE ∧ (d.missing.getD cfg.requiredFieldsOnApprove).length > 0
            then [.gather (d.missing.getD cfg.requiredFieldsOnApprove)] else [])
        ++ [.tool "decision.evaluate" "result", .agentDecision d]
        ++ (if d.decision = .APPROVE
            then [.tool "calendar.suggest" "call", .tool "calendar.suggest" "result",
                  .agentCalendar slots] else [])
        ++ [.gather (computeAsk cfg d)]
        ++ (if d.decision = .APPROVE ∧ (computeAsk cfg d).length > 0
            then [.form (buildFormSchema (computeAsk cfg d))] else [])
        ++ [.chat "assistant" "chat" reply, .stateEv (finalStateOf cfg d)] := by
  rcases d with ⟨dec, rat, miss⟩
  cases dec <;>
    by_cases hm : (miss.getD cfg.requiredFieldsOnApprove).length > 0 <;>
    by_cases ha : (computeAsk cfg ⟨Decision.APPROVE, rat, miss⟩).length > 0 <;>
    simp_all [receiveMessage, receiveMessageTail, agentDecideAndGather, emitIf]

/-- Claim C1 (code bug): a completed `receiveMessage` run computes and emits
the final state `approved_needs_details` (APPROVE with missing fields), but the
last `writeJSON` spreads the stale `next` snapshot, so the record persisted
when the operation returns still holds the pre-call state `awaiting_input`,
not the computed final state. -/
theorem receiveMessage_persists_stale_state :
    stateEvents runApprove.events = ["evaluating", "approved_needs_details"] ∧
    jobState runApprove.store = some "awaiting_input" ∧
    runApprove.resp = .ok := by decide

/-- Claim C2 (code bug): the message-length trace of the disk writes of a
completed `receiveMessage` run is `[1, 1, 2, 3, 3, 1]` - the final write
deletes the assistant/decision and assistant/chat entries appended during the
call, so the persisted transcript is not append-only and ends as just the user
message. -/
theorem receiveMessage_final_write_deletes_transcript_entries :
    (runApprove.writes.map fun j => j.messages.length) = [1, 1, 2, 3, 3, 1] ∧
    ((runApprove.writes.getD 3 job0).messages.any fun m => m.agent == "decision") = true ∧
    ((runApprove.writes.getD 3 job0).messages.any fun m => m.agent == "chat") = true ∧
    ((jobMessages runApprove.store).any fun m => m.agent == "decision") = false ∧
    ((jobMessages runApprove.store).any fun m => m.agent == "chat") = false ∧
    jobMessages runApprove.store = [⟨"user", "user", "Need a meeting", 5⟩] := by decide

/-- Claim C3 counterexample: `complete` on a job whose persisted state is the
terminal `notified` happily rewrites the state; with a failing insert the
persisted state ends as `error` (≠ `notified`), having been driven through
`ready_to_schedule` and `scheduling`. -/
theorem complete_moves_notified_job_to_error :
    notifiedJob.state = some "notified" ∧
    jobState runTerminalComplete.store = some "error" ∧
    stateEvents runTerminalComplete.events =
      ["ready_to_schedule", "scheduling", "error"] ∧
    some "error" ≠ some "notified" := by decide

/-- Claim C3 amended: no operation guards on terminal states - `complete` on a
job in `notified` or `error` runs the full submission pipeline (rewriting the
persisted state through `ready_to_schedule` and `scheduling` to `error` on
booking failure), and `receiveMessage` on such a job persists `evaluating`. -/
theorem terminal_states_not_enforced (rec : Job)
    (_h : rec.state = some "notified" ∨ rec.state = some "error")
    (e : String) (now : Nat) :
    jobState (complete (some rec) emptyForm true "owner@example.com" true false
      (.error e) now).store = some "error" ∧
    stateEvents (complete (some rec) emptyForm true "owner@example.com" true false
      (.error e) now).events = ["ready_to_schedule", "scheduling", "error"] ∧
    jobState (receiveMessage defaultConfig (some rec) "more context" true
      (.throws e) (.ok []) (.ok "r") now).store = some "evaluating" := by
  exact ⟨rfl, rfl, rfl⟩

/-- Witness for `terminal_states_not_enforced` at the concrete notified job. -/
theorem terminal_states_not_enforced_witness :
    jobState (complete (some notifiedJob) emptyForm true "owner@example.com" true false
      (.error "boom") 7).store = some "error" ∧
    stateEvents (complete (some notifiedJob) emptyForm true "owner@example.com" true false
      (.error "boom") 7).events = ["ready_to_schedule", "scheduling", "error"] ∧
    jobState (receiveMessage defaultConfig (some notifiedJob) "more context" true
      (.throws "boom") (.ok []) (.ok "r") 7).store = some "evaluating" :=
  terminal_states_not_enforced notifiedJob (Or.inl rfl) "boom" 7

/-- Claim C5 counterexample: submitting `attendees: "a@x.com, b@x.com"` to
`complete` stores the raw string verbatim, while submitting
`attendees: ["a@x.com","b@x.com"]` to `form/submit` stores the list - the two
stored `form.attendees` values are not identical. -/
theorem complete_stores_unnormalized_attendees :
    (jobForm runCompleteStr.store).map RawForm.attendees
      = some (.str "a@x.com, b@x.com") ∧
    (jobForm runFormSubmitList.store).map RawForm.attendees
      = some (.list ["a@x.com", "b@x.com"]) ∧
    (JsVal.str "a@x.com, b@x.com") ≠ (JsVal.list ["a@x.com", "b@x.com"]) := by decide

/-- Claim C8 (code bug): when the oracle call throws after the user message was
appended, the catch of the message handler swallows the error - no error event
reaches the stream, the response is still `{ok: true}`, and the persisted state
is left stuck at `evaluating` (not `awaiting_input` or `error`). -/
theorem oracle_failure_swallowed_silently :
    errorEvents runOracleThrow.events = [] ∧
    jobState runOracleThrow.store = some "evaluating" ∧
    runOracleThrow.resp = .ok := by decide

/-- Claim C10: when the calendar insert fails during either submission
endpoint, the persisted record is not rolled back: it keeps the form written
before the booking attempt (plus the appended briefing chat line), ends in
state `error` after passing through `ready_to_schedule` and `scheduling`, and
the HTTP response is a 500 Calendar error; the final record differs from the
pre-call record. -/
theorem booking_failure_not_atomic (rec : Job) (v : RawForm) (e1 e2 : String) (now : Nat) :
    (jobForm (complete (some rec) bookedForm true "u@example.com" true false
        (.error e1) now).store = some bookedForm ∧
      jobState (complete (some rec) bookedForm true "u@example.com" true false
        (.error e1) now).store = some "error" ∧
      (complete (some rec) bookedForm true "u@example.com" true false
        (.error e1) now).resp = .serverError "Calendar error" ∧
      stateEvents (complete (some rec) bookedForm true "u@example.com" true false
        (.error e1) now).events = ["ready_to_schedule", "scheduling", "error"] ∧
      jobMessages (complete (some rec) bookedForm true "u@example.com" true false
        (.error e1) now).store = rec.messages ++
        [⟨"assistant", "chat",
          "I prepared a briefing draft based on your details. Scheduling now...", now⟩] ∧
      (complete (some rec) bookedForm true "u@example.com" true false
        (.error e1) now).store ≠ some rec) ∧
    (jobForm (formSubmit (some rec) (some v) true "u@example.com" true false
        (.error e2) now).store = some (normalizeValues v) ∧
      jobState (formSubmit (some rec) (some v) true "u@example.com" true false
        (.error e2) now).store = some "error" ∧
      (formSubmit (some rec) (some v) true "u@example.com" true false
        (.error e2) now).resp = .serverError "Calendar error" ∧
      stateEvents (formSubmit (some rec) (some v) true "u@example.com" true false
        (.error e2) now).events = ["ready_to_schedule", "scheduling", "error"] ∧
      jobMessages (formSubmit (some rec) (some v) true "u@example.com" true false
        (.error e2) now).store = rec.messages ++
        [⟨"assistant", "chat", "Thanks! I have what I need. Scheduling now...", now⟩] ∧
      (formSubmit (some rec) (some v) true "u@example.com" true false
        (.error e2) now).store ≠ some rec) := by
  refine ⟨⟨rfl, rfl, rfl, rfl, rfl, ?_⟩, ⟨rfl, rfl, rfl, rfl, rfl, ?_⟩⟩
  · exact job_append_ne rec _ _ rfl
  · exact job_append_ne rec _ _ rfl

/-- Claim C4 counterexample: in a concrete completed APPROVE run the `decision`
event (index 4) and a `gather` event (index 5) are both emitted before the
`decision.evaluate` tool-result event (index 6), contradicting the claimed
tool-call → tool-result → decision → ... → gather order. -/
theorem decision_and_gather_precede_tool_result :
    runApprove.events.findIdx isDecisionEvent = 4 ∧
    runApprove.events.findIdx isGatherEvent = 5 ∧
    runApprove.events.findIdx isDecisionToolResult = 6 := by decide

/-- Claim C4 amended: the per-invocation event order of a completed
`receiveMessage` run is fixed, but it is: state, user chat echo, decision
tool-call, oracle log, decision event, optional early gather (APPROVE with a
non-empty effective missing list), decision tool-result, agent/decision, then
(when APPROVE) the calendar.suggest tool-call/result and suggestions, then
gather, optional form, chat, and the final state event - the decision event
(and possibly a gather) precedes the decision tool-result. -/
theorem receiveMessage_event_order (cfg : Config) (rec : Job) (c : String) (hc : ¬ c = "")
    (d : DecisionResult) (slots : List String) (reply : String) (now : Nat) :
    (receiveMessage cfg (some rec) c true (.output (some d)) (.ok slots) (.ok reply) now).events
      = [.stateEv "evaluating", .chat "user" "user" c, .tool "decision.evaluate" "call",
         .log "Evaluating due diligence...", .decision d]
        ++ (if d.decision = .APPROVE ∧ (d.missing.getD cfg.requiredFieldsOnApprove).length > 0
            then [.gather (d.missing.getD cfg.requiredFieldsOnApprove)] else [])
        ++ [.tool "decision.evaluate" "result", .agentDecision d]
        ++ (if d.decision = .APPROVE
            then [.tool "calendar.suggest" "call", .tool "calendar.suggest" "result",
                  .agentCalendar slots] else [])
        ++ [.gather (computeAsk cfg d)]
        ++ (if d.decision = .APPROVE ∧ (computeAsk cfg d).length > 0
            then [.form (buildFormSchema (computeAsk cfg d))] else [])
        ++ [.chat "assistant" "chat" reply, .stateEv (finalStateOf cfg d)] :=
  receiveMessage_ok_events cfg rec c hc d slots reply now

/-- Witness for `receiveMessage_event_order` at a concrete APPROVE run. -/
theorem receiveMessage_event_order_witness :
    (receiveMessage defaultConfig (some job0) "hi" true
      (.output (some approveTopic)) (.ok []) (.ok "r") 0).events
      = [.stateEv "evaluating", .chat "user" "user" "hi", .tool "decision.evaluate" "call",
         .log "Evaluating due diligence...", .decision approveTopic, .gather ["topic"],
         .tool "decision.evaluate" "result", .agentDecision approveTopic,
         .tool "calendar.suggest" "call", .tool "calendar.suggest" "result",
         .agentCalendar [], .gather ["topic"], .form (buildFormSchema ["topic"]),
         .chat "assistant" "chat" "r", .stateEv "approved_needs_details"] := by
  rw [receiveMessage_event_order defaultConfig job0 "hi" (by decide) approveTopic [] "r" 0]
  decide

/-- Claim C5 amended: `form/submit` normalizes string values by comma-split,
trim and drop-empties but passes arrays through unchanged (no trimming), while
`complete` stores the submitted form verbatim with no normalization at all; the
two endpoints agree only when `complete` is already given the normalized list. -/
theorem submission_normalization_divergence :
    (∀ (rec : Job) (f : RawForm) (ins : Except String (String × String)) (now : Nat),
      jobForm (complete (some rec) f true "u@example.com" true false ins now).store = some f) ∧
    (∀ (rec : Job) (v : RawForm) (ins : Except String (String × String)) (now : Nat),
      jobForm (formSubmit (some rec) (some v) true "u@example.com" true false ins now).store
        = some (normalizeValues v)) ∧
    toList (.str "a@x.com, b@x.com") = ["a@x.com", "b@x.com"] ∧
    toList (.list [" a@x.com ", ""]) = [" a@x.com ", ""] := by
  refine ⟨?_, ?_, by decide, by decide⟩
  · intro rec f ins now
    rcases hb : buildBriefing "u@example.com" f with e | b
    · simp [complete, hb, jobForm, updateState, appendMessage]
    · rcases ha : jsListOr f.attendees with e2 | att
      · simp [complete, hb, ha, jobForm, updateState, appendMessage]
      · rcases ins with e3 | ⟨eid, link⟩ <;>
          simp [complete, hb, ha, jobForm, updateState, appendMessage]
  · intro rec v ins now
    rcases ins with e3 | ⟨eid, link⟩ <;>
      simp [formSubmit, normalizeValues, buildBriefing, jsListOr, jobForm,
        updateState, appendMessage]

/-- Claim C6 counterexample: in the APPROVE-with-missing branch a `gather`
event and a `form` event are emitted, but an assistant free-text `chat`
follow-up is emitted as well in the same invocation - the form is not the
single follow-up artifact. -/
theorem approve_missing_branch_also_emits_chat :
    hasGatherEvent runApprove.events = true ∧
    hasFormEvent runApprove.events = true ∧
    hasAssistantChat runApprove.events = true := by decide

/-- Claim C6 amended: in the APPROVE-with-missing branch of a completed
`receiveMessage` run, `gather` and `form` are emitted and a free-text
assistant chat follow-up is also emitted in the same invocation (the chat
reply is emitted unconditionally on the success path). -/
theorem approve_missing_emits_form_and_chat (cfg : Config) (rec : Job) (c reply : String)
    (hc : c ≠ "") (rat : String) (m : List String) (hne : m ≠ [])
    (slots : List String) (now : Nat) :
    hasGatherEvent (receiveMessage cfg (some rec) c true
      (.output (some ⟨.APPROVE, rat, some m⟩)) (.ok slots) (.ok reply) now).events = true ∧
    hasFormEvent (receiveMessage cfg (some rec) c true
      (.output (some ⟨.APPROVE, rat, some m⟩)) (.ok slots) (.ok reply) now).events = true ∧
    hasAssistantChat (receiveMessage cfg (some rec) c true
      (.output (some ⟨.APPROVE, rat, some m⟩)) (.ok slots) (.ok reply) now).events = true := by
  have hlen : 0 < m.length := List.length_pos.mpr hne
  have h := receiveMessage_ok_events cfg rec c hc ⟨.APPROVE, rat, some m⟩ slots reply now
  refine ⟨?_, ?_, ?_⟩ <;>
    simp [h, hasGatherEvent, hasFormEvent, hasAssistantChat, isGatherEvent, isFormEvent,
      isAssistantChat, computeAsk, hlen, List.any_append]

/-- Witness for `approve_missing_emits_form_and_chat` at a concrete run. -/
theorem approve_missing_emits_form_and_chat_witness :
    hasGatherEvent (receiveMessage defaultConfig (some job0) "hi" true
      (.output (some ⟨.APPROVE, "ok", some ["topic"]⟩)) (.ok []) (.ok "r") 0).events = true ∧
    hasFormEvent (receiveMessage defaultConfig (some job0) "hi" true
      (.output (some ⟨.APPROVE, "ok", some ["topic"]⟩)) (.ok []) (.ok "r") 0).events = true ∧
    hasAssistantChat (receiveMessage defaultConfig (some job0) "hi" true
      (.output (some ⟨.APPROVE, "ok", some ["topic"]⟩)) (.ok []) (.ok "r") 0).events = true :=
  approve_missing_emits_form_and_chat defaultConfig job0 "hi" "r" (by decide)
    "ok" ["topic"] (by decide) [] 0

/-- Claim C7 counterexample: an APPROVE decision whose oracle missing list is
explicitly empty does not yield "no missing fields and ready_to_schedule" -
the handler falls back to the policy required-fields set for the gather, and
the final emitted state is `approved_needs_details`. -/
theorem empty_oracle_missing_list_not_respected :
    gatherEvents runEmptyMissing.events
      = [["topic", "attendees", "urgency", "desiredTimeframe"]] ∧
    stateEvents runEmptyMissing.events = ["evaluating", "approved_needs_details"] := by decide

/-- Claim C7 amended: the oracle missing list is used only when it is
non-empty; when the oracle supplies an empty list or none at all, the policy
required-fields set is used instead, so an explicitly empty APPROVE missing
list still gathers the policy fields and lands in `approved_needs_details`. -/
theorem missing_list_fallback_on_empty (cfg : Config) (d : DecisionResult) :
    (∀ m : List String, d.missing = some m → m ≠ [] → computeAsk cfg d = m) ∧
    (d.decision = .APPROVE → (d.missing = none ∨ d.missing = some []) →
      computeAsk cfg d = cfg.requiredFieldsOnApprove) ∧
    (∀ (rec : Job) (slots : List String) (reply : String) (now : Nat),
      gatherEvents ((receiveMessage defaultConfig (some rec) "m" true
        (.output (some approveEmptyMissing)) (.ok slots) (.ok reply) now)).events
        = [defaultConfig.requiredFieldsOnApprove] ∧
      stateEvents ((receiveMessage defaultConfig (some rec) "m" true
        (.output (some approveEmptyMissing)) (.ok slots) (.ok reply) now)).events
        = ["evaluating", "approved_needs_details"]) := by
  refine ⟨?_, ?_, ?_⟩
  · intro m hm hne
    have hlen : 0 < m.length := List.length_pos.mpr hne
    simp [computeAsk, hm, hlen]
  · intro hd hmiss
    rcases hmiss with h | h <;> simp [computeAsk, h, hd]
  · intro rec slots reply now
    exact ⟨rfl, rfl⟩

/-- Witness for `missing_list_fallback_on_empty` at concrete decisions. -/
theorem missing_list_fallback_on_empty_witness :
    computeAsk defaultConfig approveTopic = ["topic"] ∧
    computeAsk defaultConfig approveEmptyMissing = defaultConfig.requiredFieldsOnApprove :=
  ⟨(missing_list_fallback_on_empty defaultConfig approveTopic).1 ["topic"] rfl (by decide),
   (missing_list_fallback_on_empty defaultConfig approveEmptyMissing).2.1 rfl (Or.inr rfl)⟩

/-- Claim C9: with no oracle client the evaluation returns DECLINE with
rationale "LLM disabled"; with unparseable oracle output it returns DECLINE
with rationale "Parsing error"; neither raises, and such a `receiveMessage`
run emits no form and its final emitted state is `awaiting_input` - it never
proceeds toward scheduling. -/
theorem oracle_unavailable_defaults_to_decline :
    (∀ cfg : Config, (agentDecideAndGather cfg .noClient).2
      = Except.ok ⟨.DECLINE, "LLM disabled", none⟩) ∧
    (∀ cfg : Config, (agentDecideAndGather cfg (.output none)).2
      = Except.ok ⟨.DECLINE, "Parsing error", none⟩) ∧
    (∀ (rec : Job) (c reply : String) (slots : List String) (now : Nat), c ≠ "" →
      hasFormEvent (receiveMessage defaultConfig (some rec) c true .noClient
        (.ok slots) (.ok reply) now).events = false ∧
      stateEvents (receiveMessage defaultConfig (some rec) c true .noClient
        (.ok slots) (.ok reply) now).events = ["evaluating", "awaiting_input"]) ∧
    (∀ (rec : Job) (c reply : String) (slots : List String) (now : Nat), c ≠ "" →
      hasFormEvent (receiveMessage defaultConfig (some rec) c true (.output none)
        (.ok slots) (.ok reply) now).events = false ∧
      stateEvents (receiveMessage defaultConfig (some rec) c true (.output none)
        (.ok slots) (.ok reply) now).events = ["evaluating", "awaiting_input"]) := by
  refine ⟨fun cfg => rfl, fun cfg => rfl, ?_, ?_⟩ <;>
  · intro rec c reply slots now hcne
    unfold receiveMessage
    rw [if_neg hcne]
    exact ⟨rfl, rfl⟩

/-- Witness for `oracle_unavailable_defaults_to_decline` at a concrete run. -/
theorem oracle_unavailable_defaults_to_decline_witness :
    hasFormEvent (receiveMessage defaultConfig (some job0) "hi" true .noClient
      (.ok []) (.ok "r") 0).events = false ∧
    stateEvents (receiveMessage defaultConfig (some job0) "hi" true .noClient
      (.ok []) (.ok "r") 0).events = ["evaluating", "awaiting_input"] :=
  oracle_unavailable_defaults_to_decline.2.2.1 job0 "hi" "r" [] 0 (by decide)

end Bookening
